import Mathlib

/-!
Shallow embedding of the hyrise execution-core fragments:
 - `EqualsExpression` from src/lib/access/expressions/pred_EqualsExpression.h
 - `PapiTracer` and `FallbackTracer` from the PapiTracer header
 - `NoOp` plan operation

External collaborators (the dictionary, the table storage, the PAPI
library, the base class `SimpleFieldExpression`) are modelled from the
contracts the spec states for them; each such definition carries a doc
comment saying so.
-/

namespace Hyrise

/-- Modelled from the spec: `value_id_t` is a fixed-width unsigned integer
(32 bits); the maximum representable value is the reserved sentinel
`std::numeric_limits<value_id_t>::max()` meaning "value not present in
the dictionary". The definition of `value_id_t` lives in helper/types.h,
which is not part of the available sources. -/
def valueIdSentinel : Nat := 2 ^ 32 - 1

/-- Modelled from the spec: the consumed per-column dictionary interface
`storage::BaseDictionary<T>`. The spec specifies only the lookup
contract: `find(value) -> ValueId | NOT_FOUND`. We realise it as an
ordered list of distinct stored values; `findValueIdForValue` returns
the position of the value, or the sentinel when the value is absent. -/
structure BaseDictionary (T : Type) where
  entries : List T

/-- Modelled from the spec: `findValueIdForValue(value) -> ValueId`
(sentinel on miss). -/
def BaseDictionary.findValueIdForValue {T : Type} [DecidableEq T]
    (d : BaseDictionary T) (v : T) : Nat :=
  match d.entries.indexOf? v with
  | some i => i
  | none => valueIdSentinel

/-- Modelled from the spec: the consumed table/storage interface: per-field
dictionary handle retrieval and per-row ValueId access by (field, row). -/
structure ATable (T : Type) where
  dictionaries : List (BaseDictionary T)
  valueIds : List (List Nat)

/-- Modelled from the spec: `dictionaryAt(field)` retrieves the dictionary
handle of one field. -/
def ATable.dictionaryAt {T : Type} (t : ATable T) (f : Nat) : BaseDictionary T :=
  t.dictionaries.getD f ⟨[]⟩

/-- Modelled from the spec: `getValueId(field, row)` returns the stored
ValueId of one cell. -/
def ATable.getValueId {T : Type} (t : ATable T) (f : Nat) (r : Nat) : Nat :=
  (t.valueIds.getD f []).getD r 0

/-- The bindable state of `EqualsExpression<T>`
(pred_EqualsExpression.h). `input` and `field` come from the base class
`SimpleFieldExpression`; `table` is the bound table handle of the base
class (a null shared pointer before binding, hence `Option`). The three
cached members `valueIdMap`, `lower_bound` and `value_exists` are set
only by `walk`; before the first `walk` they are uninitialised in the
C++ object, which the embedding models as `none`. -/
structure EqualsExpression (T : Type) where
  input : Nat
  field : Nat
  value : T
  table : Option (ATable T)
  valueIdMap : Option (BaseDictionary T)
  lower_bound : Option Nat
  value_exists : Option Bool

namespace EqualsExpression

/-- The constructor `EqualsExpression(size_t _input, field_t _field, T _value)`:
deferred binding, table unset, cached members uninitialised. -/
def mkIndexed {T : Type} (input : Nat) (field : Nat) (value : T) :
    EqualsExpression T :=
  { input := input, field := field, value := value,
    table := none, valueIdMap := none, lower_bound := none, value_exists := none }

/-- The constructor `EqualsExpression(storage::c_atable_ptr_t& _table, field_t
_field, T _value)`: binds the table handle directly. Modelled from the
spec for the base-class part: direct construction bypasses slot
indirection, so the slot index is the default slot 0. -/
def mkDirect {T : Type} (table : Option (ATable T)) (field : Nat) (value : T) :
    EqualsExpression T :=
  { input := 0, field := field, value := value,
    table := table, valueIdMap := none, lower_bound := none, value_exists := none }

/-- `EqualsExpression::walk`. The call to `SimpleFieldExpression::walk(l)` is
modelled from the spec (the base class is not part of the available
sources): it selects the input table by the slot index from the ordered
list of concrete input tables and overwrites the bound table handle,
failing when the slot is out of range. Then, exactly as in the source,
the dictionary of the bound field is fetched and one dictionary lookup
of the literal is performed; its result is cached in `lower_bound` and
compared against the sentinel to set `value_exists`. -/
def walk {T : Type} [DecidableEq T] (e : EqualsExpression T)
    (l : List (ATable T)) : Option (EqualsExpression T) :=
  match l.get? e.input with
  | none => none
  | some t =>
    let d := t.dictionaryAt e.field
    let vid := d.findValueIdForValue e.value
    some { e with table := some t, valueIdMap := some d,
                  lower_bound := some vid,
                  value_exists := some (vid ≠ valueIdSentinel) }

/-- `EqualsExpression::clone`: constructs a fresh instance via the direct
constructor `EqualsExpression<T>(table, field, value)`; the clone
carries the table handle, the field and the literal value, and its
cached bind-time members are uninitialised. -/
def clone {T : Type} (e : EqualsExpression T) : EqualsExpression T :=
  mkDirect e.table e.field e.value

/-- `EqualsExpression::operator()(size_t row)`:
`value_exists && table->getValueId(field, row) == lower_bound`.
The conjunction short-circuits: when `value_exists` is false the table
is never touched. Reading an uninitialised member (evaluation before any
`walk`) has no defined result in C++ and is modelled as `none`. -/
def eval {T : Type} (e : EqualsExpression T) (row : Nat) : Option Bool :=
  match e.value_exists with
  | none => none
  | some false => some false
  | some true =>
    match e.table, e.lower_bound with
    | some t, some lb => some (t.getValueId e.field row = lb)
    | _, _ => none

/-- Instrumented copy of `walk` that additionally counts the calls to
`findValueIdForValue` (the source contains exactly one call site,
executed once per `walk`). -/
def walkCounted {T : Type} [DecidableEq T] (e : EqualsExpression T)
    (l : List (ATable T)) : Option (EqualsExpression T × Nat) :=
  match l.get? e.input with
  | none => none
  | some t =>
    let d := t.dictionaryAt e.field
    let vid := d.findValueIdForValue e.value
    some ({ e with table := some t, valueIdMap := some d,
                   lower_bound := some vid,
                   value_exists := some (vid ≠ valueIdSentinel) }, 1)

/-- Instrumented copy of `eval` that additionally counts the calls to
`table->getValueId` (the per-row table accesses). The body of
`operator()` contains no dictionary lookup at all, so only table
accesses need counting. -/
def evalCounted {T : Type} (e : EqualsExpression T) (row : Nat) :
    Option (Bool × Nat) :=
  match e.value_exists with
  | none => none
  | some false => some (false, 0)
  | some true =>
    match e.table, e.lower_bound with
    | some t, some lb => some ((t.getValueId e.field row = lb : Bool), 1)
    | _, _ => none

end EqualsExpression

/-! ## Tracers -/

/-- The two kinds of exceptions thrown by the tracer code:
`TracingError` (a `std::runtime_error` subclass prefixing its message
with "TracingError: ") and a plain `std::runtime_error`. -/
inductive TracerError where
  | tracingError (msg : String)
  | runtimeError (msg : String)
deriving DecidableEq, Repr

/-- Modelled from the spec: `joinString` from helper/stringhelpers.h (not
part of the available sources) joins a list of strings with a
separator. -/
def joinString (l : List String) (sep : String) : String :=
  String.intercalate sep l

/-- Modelled from the spec: the external PAPI library surface the tracer
uses at `start` time. `nameToCode` is `PAPI_event_name_to_code`: for a
valid symbolic counter name it yields the backend-specific event code,
for an invalid name an error string (what `PAPI_strerror` renders for
the returned error code). Attaching a translated code to an event set,
resetting and starting the set are modelled as succeeding. -/
structure PapiLib where
  nameToCode : String → Except String Int

/-- The state of `PapiTracer` (hardware-counter backend): the event set
(the codes attached so far), the `_disabled` and `_running` flags, the
registered counter names and the result snapshot. -/
structure PapiTracer where
  eventSet : List Int
  disabled : Bool
  running : Bool
  counters : List String
  results : List Int
deriving DecidableEq, Repr

namespace PapiTracer

/-- The member state established by the `PapiTracer` constructor: a fresh
empty event set, not disabled, not running, no counters. (The
process-wide PAPI library and thread bring-up the constructor also
performs has no effect on the member state.) -/
def mkNew : PapiTracer :=
  { eventSet := [], disabled := false, running := false,
    counters := [], results := [] }

/-- `PapiTracer::addEvent(eventName)`: the reserved sentinel name
"NO_PAPI" sets `_disabled` and returns; every other name is appended to
`_counters` without any validation. -/
def addEvent (t : PapiTracer) (eventName : String) : PapiTracer :=
  if eventName = "NO_PAPI" then { t with disabled := true }
  else { t with counters := t.counters ++ [eventName] }

/-- The `handle(PAPI_event_name_to_code, "Create event from " + name, ...)`
step of `PapiTracer::start`, for one counter name: on a PAPI error it
throws a `TracingError` whose message is the activity followed by
" failed: " and the PAPI error string. -/
def translateEvent (lib : PapiLib) (eventName : String) : Except TracerError Int :=
  match lib.nameToCode eventName with
  | Except.ok code => Except.ok code
  | Except.error s =>
    Except.error (TracerError.tracingError
      ("Create event from " ++ eventName ++ " failed: " ++ s))

/-- The per-counter loop of `PapiTracer::start`: each registered name is
translated to an event code and attached to the event set; the first
failing translation aborts with its error. -/
def translateAll (lib : PapiLib) : List String → Except TracerError (List Int)
  | [] => Except.ok []
  | n :: ns =>
    match translateEvent lib n with
    | Except.error e => Except.error e
    | Except.ok c =>
      match translateAll lib ns with
      | Except.error e => Except.error e
      | Except.ok cs => Except.ok (c :: cs)

/-- `PapiTracer::start()`: a no-op when disabled; throws
`std::runtime_error("No events set")` when no counters are registered;
otherwise translates every registered name to a code, attaches the
codes to the event set, clears and resizes `_results` to one zero per
counter, sets `_running`, and resets and starts the hardware set. -/
def start (t : PapiTracer) (lib : PapiLib) : Except TracerError PapiTracer :=
  if t.disabled then Except.ok t
  else if t.counters.isEmpty then
    Except.error (TracerError.runtimeError ("No events set"))
  else
    match translateAll lib t.counters with
    | Except.error e => Except.error e
    | Except.ok codes =>
      Except.ok { t with eventSet := t.eventSet ++ codes,
                         results := List.replicate t.counters.length 0,
                         running := true }

/-- `PapiTracer::stop()`: a no-op when disabled; otherwise `PAPI_stop`
writes the current hardware readings into `_results` and `_running` is
cleared. The readings come from the external hardware and are a
parameter of the model. -/
def stop (t : PapiTracer) (readings : List Int) : PapiTracer :=
  if t.disabled then t
  else { t with results := readings, running := false }

/-- `PapiTracer::reset()`: a no-op when disabled; otherwise `stop()`
followed by clearing `_results` and resetting the hardware set. -/
def reset (t : PapiTracer) (readings : List Int) : PapiTracer :=
  if t.disabled then t
  else { t.stop readings with results := [] }

/-- `PapiTracer::value(eventName)`: returns 0 when disabled; throws a
`TracingError` naming the unregistered event and listing the registered
names when the name was never added; otherwise returns the stored
result at the position of the name (`std::vector::at`, which throws
when the results vector is shorter). -/
def value (t : PapiTracer) (eventName : String) : Except TracerError Int :=
  if t.disabled then Except.ok 0
  else
    match t.counters.indexOf? eventName with
    | none =>
      Except.error (TracerError.tracingError
        ("Trying to access unregistered event " ++ "'" ++ eventName ++ "' " ++
         "Available: " ++ joinString t.counters (" ")))
    | some index =>
      match t.results.get? index with
      | some r => Except.ok r
      | none => Except.error (TracerError.runtimeError ("vector::at out of range"))

end PapiTracer

/-- `struct timeval`: seconds and microseconds. -/
structure Timeval where
  tv_sec : Int
  tv_usec : Int
deriving DecidableEq, Repr

/-- The state of `FallbackTracer` (wall-clock backend): registered counter
names, the single elapsed-time result and the start timestamp. There is
no disabled flag in this backend. -/
structure FallbackTracer where
  counters : List String
  result : Int
  startTime : Timeval
deriving DecidableEq, Repr

namespace FallbackTracer

/-- `FallbackTracer::addEvent(eventName)`: appends the name to
`_counters`, with no validation and no sentinel check. -/
def addEvent (t : FallbackTracer) (eventName : String) : FallbackTracer :=
  { t with counters := t.counters ++ [eventName] }

/-- `FallbackTracer::start()`: throws `TracingError("No events set")` when
no counters are registered; otherwise zeroes `_result` and records the
current wall-clock time (a parameter of the model) as `_start`. -/
def start (t : FallbackTracer) (now : Timeval) : Except TracerError FallbackTracer :=
  if t.counters.isEmpty then
    Except.error (TracerError.tracingError ("No events set"))
  else
    Except.ok { t with result := 0, startTime := now }

/-- `FallbackTracer::stop()`: computes the elapsed microseconds between
`_start` and the current wall-clock time and stores it in `_result`. -/
def stop (t : FallbackTracer) (now : Timeval) : FallbackTracer :=
  { t with result :=
      (now.tv_sec - t.startTime.tv_sec) * 1000000 +
      (now.tv_usec - t.startTime.tv_usec) }

/-- `FallbackTracer::reset()`: zeroes `_start` and `_result`; `_counters`
is not touched. -/
def reset (t : FallbackTracer) : FallbackTracer :=
  { t with startTime := ⟨0, 0⟩, result := 0 }

/-- `FallbackTracer::value(eventName)`: throws a `TracingError` naming the
unregistered event and listing the registered names when the name was
never added; otherwise returns the single `_result`. -/
def value (t : FallbackTracer) (eventName : String) : Except TracerError Int :=
  if t.counters.contains eventName then Except.ok t.result
  else
    Except.error (TracerError.tracingError
      ("Trying to access unregistered event " ++ "'" ++ eventName ++ "' " ++
       "Available: " ++ joinString t.counters (" ")))

end FallbackTracer

/-! ## NoOp plan operation -/

/-- The dynamically-typed parameter payload (`Json::Value`) handed to a
plan operation at parse time. -/
inductive JsonValue where
  | null : JsonValue
  | bool : Bool → JsonValue
  | num : Int → JsonValue
  | str : String → JsonValue
  | arr : List JsonValue → JsonValue
  | obj : List (String × JsonValue) → JsonValue

/-- The `NoOp` plan operation carries no operation-specific state. -/
structure NoOp where
deriving DecidableEq, Repr

namespace NoOp

/-- `NoOp::parse(Json::Value& data)`: ignores the payload entirely and
returns `std::make_shared<NoOp>()`, a freshly constructed default
instance. -/
def parse (data : JsonValue) : NoOp := {}

/-- `NoOp::executePlanOperation()`: an empty body — the operation state is
returned unchanged and no error can occur. -/
def executePlanOperation (op : NoOp) : NoOp := op

end NoOp

/-! ## Helper lemmas -/

theorem indexOf?_eq_none_of_not_mem {T : Type} [DecidableEq T]
    {v : T} {l : List T} (h : v ∉ l) : l.indexOf? v = none := by
  rw [List.indexOf?_eq_none_iff]
  intro x hx
  simp only [beq_iff_eq]
  rintro rfl
  exact h hx

theorem indexOf?_some_lt_length {T : Type} [DecidableEq T]
    {v : T} {l : List T} (h : v ∈ l) :
    ∃ i, l.indexOf? v = some i ∧ i < l.length := by
  induction l with
  | nil => cases h
  | cons x xs ih =>
    rw [List.indexOf?_cons]
    by_cases hx : x = v
    · refine ⟨0, ?_, ?_⟩ <;> simp [hx]
    · have hv : v ∈ xs := by
        rcases List.mem_cons.mp h with h1 | h1
        · exact absurd h1.symm hx
        · exact h1
      obtain ⟨i, hi, hlen⟩ := ih hv
      refine ⟨i + 1, ?_, ?_⟩
      · simp [hx, hi]
      · simpa using Nat.succ_lt_succ hlen

theorem findValueIdForValue_of_not_mem {T : Type} [DecidableEq T]
    (d : BaseDictionary T) (v : T) (h : v ∉ d.entries) :
    d.findValueIdForValue v = valueIdSentinel := by
  unfold BaseDictionary.findValueIdForValue
  rw [indexOf?_eq_none_of_not_mem h]

theorem findValueIdForValue_of_mem {T : Type} [DecidableEq T]
    (d : BaseDictionary T) (v : T) (h : v ∈ d.entries) :
    ∃ i, d.findValueIdForValue v = i ∧ i < d.entries.length := by
  obtain ⟨i, hi, hlen⟩ := indexOf?_some_lt_length h
  refine ⟨i, ?_, hlen⟩
  unfold BaseDictionary.findValueIdForValue
  rw [hi]

theorem walk_depends_only_on_config {T : Type} [DecidableEq T]
    (e e' : EqualsExpression T) (l : List (ATable T))
    (hi : e.input = e'.input) (hf : e.field = e'.field) (hv : e.value = e'.value) :
    EqualsExpression.walk e l = EqualsExpression.walk e' l := by
  cases e; cases e'
  simp only at hi hf hv
  subst hi; subst hf; subst hv
  unfold EqualsExpression.walk
  cases l.get? _ <;> rfl

theorem walk_preserves_config {T : Type} [DecidableEq T]
    {e e' : EqualsExpression T} {l : List (ATable T)}
    (h : EqualsExpression.walk e l = some e') :
    e'.input = e.input ∧ e'.field = e.field ∧ e'.value = e.value := by
  unfold EqualsExpression.walk at h
  cases hg : l.get? e.input <;> rw [hg] at h
  · cases h
  · cases h
    exact ⟨rfl, rfl, rfl⟩

/-! ## Claims about the equality expression -/

/-- C1: for every column and every literal value not present in the
dictionary of that column, an equality predicate bound to that column
via `walk` evaluates to false for every row index; the bind performs
exactly one dictionary lookup of the literal, and per-row evaluation
short-circuits, performing zero table accesses. -/
theorem C1_absent_literal_false_no_table_access {T : Type} [DecidableEq T]
    (input field : Nat) (v : T) (l : List (ATable T)) (t : ATable T)
    (ht : l.get? input = some t)
    (habsent : v ∉ (t.dictionaryAt field).entries) :
    ∃ e, EqualsExpression.walk (EqualsExpression.mkIndexed input field v) l = some e ∧
      EqualsExpression.walkCounted (EqualsExpression.mkIndexed input field v) l = some (e, 1) ∧
      (∀ row, EqualsExpression.eval e row = some false) ∧
      (∀ row, EqualsExpression.evalCounted e row = some (false, 0)) := by
  have hfind := findValueIdForValue_of_not_mem (t.dictionaryAt field) v habsent
  refine ⟨{ input := input, field := field, value := v, table := some t,
            valueIdMap := some (t.dictionaryAt field),
            lower_bound := some valueIdSentinel,
            value_exists := some false }, ?_, ?_, ?_, ?_⟩
  · unfold EqualsExpression.walk EqualsExpression.mkIndexed
    rw [ht]
    simp [hfind]
  · unfold EqualsExpression.walkCounted EqualsExpression.mkIndexed
    rw [ht]
    simp [hfind]
  · intro row
    rfl
  · intro row
    rfl

/-- A concrete two-value dictionary column with three rows, used to
instantiate the expression claims: row ValueIds 0, 1, 0 over the
dictionary [10, 20]. -/
def wTable : ATable Nat := ⟨[⟨[10, 20]⟩], [[0, 1, 0]]⟩

/-- Witness for C1 at a concrete input: literal 99 is absent from the
dictionary [10, 20]. -/
theorem C1_absent_literal_false_no_table_access_witness :
    ∃ e, EqualsExpression.walk (EqualsExpression.mkIndexed 0 0 99) [wTable] = some e ∧
      EqualsExpression.walkCounted (EqualsExpression.mkIndexed 0 0 99) [wTable] = some (e, 1) ∧
      (∀ row, EqualsExpression.eval e row = some false) ∧
      (∀ row, EqualsExpression.evalCounted e row = some (false, 0)) :=
  C1_absent_literal_false_no_table_access 0 0 99 [wTable] wTable rfl (by decide)

/-- C2: for every column and every literal value present in the
dictionary of that column, the bound equality predicate caches the
looked-up ValueId at bind time and evaluates to true on exactly those
row indices whose stored ValueId for the bound field equals the cached
ValueId, and to false on all other rows. (The dictionary fits the
fixed-width ValueId type, so a real position never collides with the
sentinel.) -/
theorem C2_present_literal_matches_cached_valueid {T : Type} [DecidableEq T]
    (input field : Nat) (v : T) (l : List (ATable T)) (t : ATable T)
    (ht : l.get? input = some t)
    (hmem : v ∈ (t.dictionaryAt field).entries)
    (hsmall : (t.dictionaryAt field).entries.length ≤ valueIdSentinel) :
    ∃ e vid, EqualsExpression.walk (EqualsExpression.mkIndexed input field v) l = some e ∧
      (t.dictionaryAt field).findValueIdForValue v = vid ∧
      e.lower_bound = some vid ∧ e.value_exists = some true ∧
      ∀ row, (EqualsExpression.eval e row = some true ↔ t.getValueId field row = vid) ∧
             (t.getValueId field row ≠ vid → EqualsExpression.eval e row = some false) := by
  obtain ⟨i, hi, hlen⟩ := findValueIdForValue_of_mem (t.dictionaryAt field) v hmem
  have hne : i ≠ valueIdSentinel := Nat.ne_of_lt (Nat.lt_of_lt_of_le hlen hsmall)
  refine ⟨{ input := input, field := field, value := v, table := some t,
            valueIdMap := some (t.dictionaryAt field),
            lower_bound := some i,
            value_exists := some true }, i, ?_, hi, rfl, rfl, ?_⟩
  · unfold EqualsExpression.walk EqualsExpression.mkIndexed
    rw [ht]
    simp [hi, hne]
  · intro row
    constructor
    · unfold EqualsExpression.eval
      simp
    · intro hrow
      unfold EqualsExpression.eval
      simp [hrow]

/-- Witness for C2 at a concrete input: literal 20 sits at position 1 of
the dictionary [10, 20]; rows 0, 1, 2 carry the ValueIds 0, 1, 0. -/
theorem C2_present_literal_matches_cached_valueid_witness :
    ∃ e vid, EqualsExpression.walk (EqualsExpression.mkIndexed 0 0 20) [wTable] = some e ∧
      (wTable.dictionaryAt 0).findValueIdForValue 20 = vid ∧
      e.lower_bound = some vid ∧ e.value_exists = some true ∧
      ∀ row, (EqualsExpression.eval e row = some true ↔ wTable.getValueId 0 row = vid) ∧
             (wTable.getValueId 0 row ≠ vid → EqualsExpression.eval e row = some false) :=
  C2_present_literal_matches_cached_valueid 0 0 20 [wTable] wTable rfl (by decide) (by decide)

/-- The bound state reached by walking a fresh equality predicate for
literal 20 on field 0 against `wTable`. -/
def wBound : EqualsExpression Nat :=
  { input := 0, field := 0, value := 20, table := some wTable,
    valueIdMap := some ⟨[10, 20]⟩, lower_bound := some 1,
    value_exists := some true }

/-- C3: cloning a bound equality expression yields a new instance that
carries the same table handle, field and literal value but whose cached
bind-time members are uninitialised; evaluating the clone before
re-binding has no defined result (a precondition violation, modelled as
`none`); and re-binding the clone against a new list of input tables
behaves exactly like binding a freshly constructed predicate with the
same field/value configuration against those tables. -/
theorem C3_clone_unbound_rebind {T : Type} [DecidableEq T]
    (e0 e : EqualsExpression T) (l : List (ATable T))
    (hwalk : EqualsExpression.walk e0 l = some e) :
    (e.clone.table = e.table ∧ e.clone.field = e.field ∧ e.clone.value = e.value) ∧
    (e.clone.valueIdMap = none ∧ e.clone.lower_bound = none ∧
     e.clone.value_exists = none) ∧
    (∀ row, EqualsExpression.eval e.clone row = none) ∧
    (∀ l2, EqualsExpression.walk e.clone l2 =
       EqualsExpression.walk (EqualsExpression.mkIndexed 0 e.field e.value) l2) := by
  refine ⟨⟨rfl, rfl, rfl⟩, ⟨rfl, rfl, rfl⟩, fun row => rfl, fun l2 => ?_⟩
  exact walk_depends_only_on_config _ _ _ rfl rfl rfl

/-- Witness for C3 at a concrete input: the predicate for literal 20
bound against `wTable`. -/
theorem C3_clone_unbound_rebind_witness :
    (wBound.clone.table = wBound.table ∧ wBound.clone.field = wBound.field ∧
     wBound.clone.value = wBound.value) ∧
    (wBound.clone.valueIdMap = none ∧ wBound.clone.lower_bound = none ∧
     wBound.clone.value_exists = none) ∧
    (∀ row, EqualsExpression.eval wBound.clone row = none) ∧
    (∀ l2, EqualsExpression.walk wBound.clone l2 =
       EqualsExpression.walk (EqualsExpression.mkIndexed 0 wBound.field wBound.value) l2) :=
  C3_clone_unbound_rebind (EqualsExpression.mkIndexed 0 0 20) wBound [wTable] rfl

/-- C8: walking an already-walked equality expression a second time
re-resolves everything from scratch and overwrites the cached bind-time
state, so against a new list of input tables it produces exactly the
state a freshly constructed expression with the same configuration
would reach after its first walk. -/
theorem C8_rewalk_equals_fresh_walk {T : Type} [DecidableEq T]
    (e0 e1 : EqualsExpression T) (l1 l2 : List (ATable T))
    (hwalk : EqualsExpression.walk e0 l1 = some e1) :
    EqualsExpression.walk e1 l2 =
      EqualsExpression.walk (EqualsExpression.mkIndexed e0.input e0.field e0.value) l2 := by
  obtain ⟨hi, hf, hv⟩ := walk_preserves_config hwalk
  exact walk_depends_only_on_config _ _ _ hi hf hv

/-- A second concrete table with a differently shaped dictionary, used to
re-walk expressions: one row whose ValueId 0 denotes the value 20. -/
def wTable2 : ATable Nat := ⟨[⟨[20]⟩], [[0]]⟩

/-- Witness for C8 at a concrete input: the predicate bound against
`wTable` is re-walked against `wTable2`. -/
theorem C8_rewalk_equals_fresh_walk_witness :
    EqualsExpression.walk wBound [wTable2] =
      EqualsExpression.walk (EqualsExpression.mkIndexed 0 0 20) [wTable2] :=
  C8_rewalk_equals_fresh_walk (EqualsExpression.mkIndexed 0 0 20) wBound
    [wTable] [wTable2] rfl

/-! ## Claims about the tracers -/

/-- C4 counterexample: the claim asserts the sentinel disables both
backends identically, but `FallbackTracer::addEvent` has no sentinel
check at all: on a fresh fallback tracer, adding "NO_PAPI" registers it
as an ordinary counter, and querying a never-added name then throws
instead of returning zero. -/
theorem C4_fallback_ignores_sentinel_counterexample :
    ((⟨[], 0, ⟨0, 0⟩⟩ : FallbackTracer).addEvent ("NO_PAPI")).counters = ["NO_PAPI"] ∧
    ((⟨[], 0, ⟨0, 0⟩⟩ : FallbackTracer).addEvent ("NO_PAPI")).value ("X") =
      Except.error (TracerError.tracingError
        ("Trying to access unregistered event 'X' Available: NO_PAPI")) := by
  constructor
  · rfl
  · rfl

/-- C4 (amended): in the hardware-counter backend only, `addEvent` with
the reserved sentinel name "NO_PAPI" disables the instance: thereafter
`start`, `stop` and `reset` are no-ops and `value` returns zero for
every name, including names never added. The fallback backend treats
the sentinel as an ordinary counter name. -/
theorem C4_sentinel_disables_papi_backend (t : PapiTracer) (tf : FallbackTracer)
    (lib : PapiLib) (readings readings2 : List Int) (name : String) :
    (t.addEvent ("NO_PAPI")).disabled = true ∧
    (t.addEvent ("NO_PAPI")).start lib = Except.ok (t.addEvent ("NO_PAPI")) ∧
    (t.addEvent ("NO_PAPI")).stop readings = t.addEvent ("NO_PAPI") ∧
    (t.addEvent ("NO_PAPI")).reset readings2 = t.addEvent ("NO_PAPI") ∧
    (t.addEvent ("NO_PAPI")).value name = Except.ok 0 ∧
    (tf.addEvent ("NO_PAPI")).counters = tf.counters ++ ["NO_PAPI"] := by
  refine ⟨rfl, ?_, ?_, ?_, ?_, rfl⟩ <;>
    simp [PapiTracer.addEvent, PapiTracer.start, PapiTracer.stop,
          PapiTracer.reset, PapiTracer.value]

/-- A PAPI library model in which every symbolic name is invalid. -/
def wBadLib : PapiLib := ⟨fun _ => Except.error ("invalid event name")⟩

/-- C5 counterexample: on a fresh hardware-backend tracer, `addEvent`
with an invalid non-sentinel name raises no error and attaches nothing
to the event set — it merely records the name — and the fatal tracing
error for the invalid name is raised later, at `start()`. -/
theorem C5_addEvent_defers_validation_counterexample :
    (PapiTracer.mkNew.addEvent ("PAPI_BOGUS")).counters = ["PAPI_BOGUS"] ∧
    (PapiTracer.mkNew.addEvent ("PAPI_BOGUS")).eventSet = [] ∧
    (PapiTracer.mkNew.addEvent ("PAPI_BOGUS")).start wBadLib =
      Except.error (TracerError.tracingError
        ("Create event from PAPI_BOGUS failed: invalid event name")) := by
  refine ⟨rfl, rfl, ?_⟩
  rfl

/-- C5 (amended): in the hardware-counter backend, `addEvent` with an
invalid non-sentinel name records the name without any validation;
the translation of the symbolic name to a backend code and its
attachment to the event set happen in `start()`, which raises the fatal
tracing error for the invalid name there. -/
theorem C5_invalid_name_fails_at_start (t : PapiTracer) (lib : PapiLib)
    (name errs : String)
    (hns : name ≠ "NO_PAPI") (hinv : lib.nameToCode name = Except.error errs)
    (hnd : t.disabled = false) (hc : t.counters = []) :
    (t.addEvent name).counters = t.counters ++ [name] ∧
    (t.addEvent name).eventSet = t.eventSet ∧
    (t.addEvent name).start lib =
      Except.error (TracerError.tracingError
        ("Create event from " ++ name ++ " failed: " ++ errs)) := by
  refine ⟨?_, ?_, ?_⟩
  · simp [PapiTracer.addEvent, hns]
  · simp [PapiTracer.addEvent, hns]
  · simp [PapiTracer.addEvent, hns, PapiTracer.start, hnd, hc,
          PapiTracer.translateAll, PapiTracer.translateEvent, hinv]

/-- Witness for C5 (amended) at a concrete input: a fresh tracer, the
invalid name "PAPI_BOGUS" and a PAPI library rejecting every name. -/
theorem C5_invalid_name_fails_at_start_witness :
    (PapiTracer.mkNew.addEvent ("PAPI_BOGUS")).counters =
      PapiTracer.mkNew.counters ++ ["PAPI_BOGUS"] ∧
    (PapiTracer.mkNew.addEvent ("PAPI_BOGUS")).eventSet = PapiTracer.mkNew.eventSet ∧
    (PapiTracer.mkNew.addEvent ("PAPI_BOGUS")).start wBadLib =
      Except.error (TracerError.tracingError
        ("Create event from " ++ "PAPI_BOGUS" ++ " failed: " ++ "invalid event name")) :=
  C5_invalid_name_fails_at_start PapiTracer.mkNew wBadLib ("PAPI_BOGUS")
    ("invalid event name") (by decide) rfl rfl rfl

theorem get?_eq_some_getD {α : Type} (l : List α) (i : Nat) (d : α)
    (h : i < l.length) : l.get? i = some (l.getD i d) := by
  induction l generalizing i with
  | nil => simp at h
  | cons x xs ih =>
    cases i with
    | zero => rfl
    | succ j => simpa using ih j (by simpa using h)

theorem indexOf?_some_lt {T : Type} [DecidableEq T] {v : T} {l : List T} {i : Nat}
    (h : l.indexOf? v = some i) : i < l.length := by
  induction l generalizing i with
  | nil => simp at h
  | cons x xs ih =>
    rw [List.indexOf?_cons] at h
    by_cases hx : x = v
    · simp only [hx, beq_self_eq_true, if_pos] at h
      cases h
      simp
    · have hb : (x == v) = false := by simp [hx]
      rw [hb] at h
      simp only [if_neg Bool.false_ne_true] at h
      rcases Option.map_eq_some.mp h with ⟨j, hj, rfl⟩
      simpa using Nat.succ_lt_succ (ih hj)

/-- C6: on a non-disabled instance of either backend, `value(name)` for
a name never registered via `addEvent` fails with a "not registered"
tracing error whose message lists the registered counter names, while
for a registered name — here queried right after the most recent
`stop()` — it returns that most recent measured result (the stored
reading at the position of the name for the hardware backend, the
elapsed microseconds for the fallback backend). -/
theorem C6_value_unregistered_fails_registered_returns
    (tp : PapiTracer) (tf : FallbackTracer) (nameU nameR : String) (i : Nat)
    (readings : List Int) (now : Timeval)
    (hnd : tp.disabled = false)
    (hU : tp.counters.indexOf? nameU = none)
    (hR : tp.counters.indexOf? nameR = some i)
    (hlen : readings.length = tp.counters.length)
    (hfU : nameU ∉ tf.counters)
    (hfR : nameR ∈ tf.counters) :
    tp.value nameU = Except.error (TracerError.tracingError
      ("Trying to access unregistered event " ++ "'" ++ nameU ++ "' " ++
       "Available: " ++ joinString tp.counters (" "))) ∧
    (tp.stop readings).value nameR = Except.ok (readings.getD i 0) ∧
    tf.value nameU = Except.error (TracerError.tracingError
      ("Trying to access unregistered event " ++ "'" ++ nameU ++ "' " ++
       "Available: " ++ joinString tf.counters (" "))) ∧
    (tf.stop now).value nameR =
      Except.ok ((now.tv_sec - tf.startTime.tv_sec) * 1000000 +
                 (now.tv_usec - tf.startTime.tv_usec)) := by
  have hi : i < readings.length := by
    rw [hlen]; exact indexOf?_some_lt hR
  refine ⟨?_, ?_, ?_, ?_⟩
  · unfold PapiTracer.value
    rw [if_neg (by simp [hnd]), hU]
  · unfold PapiTracer.stop PapiTracer.value
    rw [if_neg (by simp [hnd])]
    rw [if_neg (by simp [hnd])]
    rw [hR]
    simp [get?_eq_some_getD readings i 0 hi, List.getElem?_eq_getElem hi]
  · unfold FallbackTracer.value
    rw [if_neg (by simpa using hfU)]
  · unfold FallbackTracer.stop FallbackTracer.value
    rw [if_pos (by simpa using hfR)]

/-- Witness for C6 at a concrete input: the hardware backend has the
registered counter "X" with stored reading 42; the fallback backend has
the registered counter "X" and a stop at 1 s 500 µs after a start at
0 s 0 µs; "Y" was never registered on either. -/
theorem C6_value_unregistered_fails_registered_returns_witness :
    ({ eventSet := [], disabled := false, running := true,
       counters := ["X"], results := [7] } : PapiTracer).value ("Y") =
      Except.error (TracerError.tracingError
        ("Trying to access unregistered event " ++ "'" ++ "Y" ++ "' " ++
         "Available: " ++ joinString ["X"] (" "))) ∧
    (({ eventSet := [], disabled := false, running := true,
        counters := ["X"], results := [7] } : PapiTracer).stop [42]).value ("X") =
      Except.ok (List.getD [42] 0 0) ∧
    ({ counters := ["X"], result := 0, startTime := ⟨0, 0⟩ } : FallbackTracer).value ("Y") =
      Except.error (TracerError.tracingError
        ("Trying to access unregistered event " ++ "'" ++ "Y" ++ "' " ++
         "Available: " ++ joinString ["X"] (" "))) ∧
    (({ counters := ["X"], result := 0, startTime := ⟨0, 0⟩ } : FallbackTracer).stop
        ⟨1, 500⟩).value ("X") =
      Except.ok (((1 : Int) - 0) * 1000000 + (500 - 0)) :=
  C6_value_unregistered_fails_registered_returns
    { eventSet := [], disabled := false, running := true,
      counters := ["X"], results := [7] }
    { counters := ["X"], result := 0, startTime := ⟨0, 0⟩ }
    ("Y") ("X") 0 [42] ⟨1, 500⟩ rfl (by decide) (by decide) rfl
    (by decide) (by decide)

/-- C7: on a non-disabled instance with no registered counters, `start`
fails with a configuration error instead of beginning a measurement
window: the hardware backend throws `std::runtime_error("No events
set")`, the fallback backend throws `TracingError("No events set")`. -/
theorem C7_start_without_counters_fails (tp : PapiTracer) (tf : FallbackTracer)
    (lib : PapiLib) (now : Timeval)
    (hnd : tp.disabled = false) (hp : tp.counters = []) (hf : tf.counters = []) :
    tp.start lib = Except.error (TracerError.runtimeError ("No events set")) ∧
    tf.start now = Except.error (TracerError.tracingError ("No events set")) := by
  constructor
  · unfold PapiTracer.start
    rw [if_neg (by simp [hnd]), if_pos (by simp [hp])]
  · unfold FallbackTracer.start
    rw [if_pos (by simp [hf])]

/-- Witness for C7 at a concrete input: a fresh hardware-backend tracer
and a fresh fallback tracer, neither with any registered counter. -/
theorem C7_start_without_counters_fails_witness :
    PapiTracer.mkNew.start wBadLib =
      Except.error (TracerError.runtimeError ("No events set")) ∧
    (⟨[], 0, ⟨0, 0⟩⟩ : FallbackTracer).start ⟨3, 4⟩ =
      Except.error (TracerError.tracingError ("No events set")) :=
  C7_start_without_counters_fails PapiTracer.mkNew ⟨[], 0, ⟨0, 0⟩⟩ wBadLib ⟨3, 4⟩
    rfl rfl rfl

/-- C9: the no-op plan operation ignores whatever parse payload it is
given — any two payloads yield the same freshly constructed default
instance — and its execution entry point returns the state unchanged
and cannot fail. -/
theorem C9_noop_parse_ignores_payload_execute_no_effect
    (d1 d2 : JsonValue) (op : NoOp) :
    NoOp.parse d1 = NoOp.parse d2 ∧
    NoOp.parse d1 = {} ∧
    NoOp.executePlanOperation op = op :=
  ⟨rfl, rfl, rfl⟩

/-- C10: in the fallback backend, `reset()` zeroes exactly the stored
result and the start timestamp and leaves the registered counter names
untouched: afterwards `value` of a previously registered name returns 0
without error, and `start` can be called again without re-registering
anything. -/
theorem C10_fallback_reset_keeps_counters (tf : FallbackTracer) (name : String)
    (now : Timeval) (hmem : name ∈ tf.counters) :
    tf.reset.counters = tf.counters ∧
    tf.reset.result = 0 ∧
    tf.reset.startTime = ⟨0, 0⟩ ∧
    tf.reset.value name = Except.ok 0 ∧
    tf.reset.start now = Except.ok { tf.reset with result := 0, startTime := now } := by
  refine ⟨rfl, rfl, rfl, ?_, ?_⟩
  · unfold FallbackTracer.value
    rw [if_pos (by simpa [FallbackTracer.reset] using hmem)]
    rfl
  · unfold FallbackTracer.start
    rw [if_neg ?_]
    intro h
    rw [List.isEmpty_iff] at h
    simp only [FallbackTracer.reset] at h
    rw [h] at hmem
    cases hmem

/-- Witness for C10 at a concrete input: a fallback tracer with the
registered counter "X", a nonzero stored result and a nonzero start
timestamp. -/
theorem C10_fallback_reset_keeps_counters_witness :
    ({ counters := ["X"], result := 42, startTime := ⟨9, 9⟩ } : FallbackTracer).reset.counters = ["X"] ∧
    ({ counters := ["X"], result := 42, startTime := ⟨9, 9⟩ } : FallbackTracer).reset.result = 0 ∧
    ({ counters := ["X"], result := 42, startTime := ⟨9, 9⟩ } : FallbackTracer).reset.startTime = ⟨0, 0⟩ ∧
    ({ counters := ["X"], result := 42, startTime := ⟨9, 9⟩ } : FallbackTracer).reset.value ("X") =
      Except.ok 0 ∧
    ({ counters := ["X"], result := 42, startTime := ⟨9, 9⟩ } : FallbackTracer).reset.start ⟨1, 2⟩ =
      Except.ok { ({ counters := ["X"], result := 42, startTime := ⟨9, 9⟩ } : FallbackTracer).reset
                    with result := 0, startTime := ⟨1, 2⟩ } :=
  C10_fallback_reset_keeps_counters
    { counters := ["X"], result := 42, startTime := ⟨9, 9⟩ } ("X") ⟨1, 2⟩ (by decide)

end Hyrise
